import Mathlib

/-
Verification of the Personal Expense Tracker (a TypeScript/React application)
against its natural-language specification.

The TypeScript services are shallowly embedded in Lean:
* JavaScript numbers are modelled as rationals (ℚ); `Math.round` is `jsRound`.
* The browser `localStorage` is modelled by passing the stored data explicitly
  (a list of entries, a list of budgets, the streak record, ...) and returning
  the updated data where the source writes it back.
* Wall-clock reads (`new Date()`) are modelled by explicit `today` parameters.
* An ISO date string is modelled together with its parse: an `Entry` carries
  the `date` string plus `dateYear`/`dateMonth`, the values that
  `new Date(entry.date).getFullYear()` / `.getMonth()` (0-based) produce.
-/

/-- JavaScript `Math.round`: rounds half-way cases toward positive infinity,
i.e. `Math.round(x) = ⌊x + 1/2⌋`. -/
def jsRound (q : ℚ) : ℤ := ⌊q + 1/2⌋

/-- The `Category` union type from `types.ts` (16 categories). -/
inductive Category
  | FoodGroceries | Meals | Transport | Fuel | RentUtilities | Education | HealthHygiene
  | EatingOut | Entertainment | Shopping | TravelTrips | Hobbies | Gifts
  | EmergencyFund | Gadgets | FutureGoals
  deriving DecidableEq, Repr

/-- `NEEDS_CATEGORIES` from `types.ts`. -/
def NEEDS_CATEGORIES : List Category :=
  [Category.FoodGroceries, Category.Meals, Category.Transport, Category.Fuel,
   Category.RentUtilities, Category.Education, Category.HealthHygiene]

/-- `LIFESTYLE_CATEGORIES` from `types.ts`. -/
def LIFESTYLE_CATEGORIES : List Category :=
  [Category.EatingOut, Category.Entertainment, Category.Shopping,
   Category.TravelTrips, Category.Hobbies, Category.Gifts]

/-- `SAVINGS_CATEGORIES` from `types.ts`. -/
def SAVINGS_CATEGORIES : List Category :=
  [Category.EmergencyFund, Category.Gadgets, Category.FutureGoals]

/-- `ALL_CATEGORIES` from `types.ts`. -/
def ALL_CATEGORIES : List Category :=
  NEEDS_CATEGORIES ++ LIFESTYLE_CATEGORIES ++ SAVINGS_CATEGORIES

/-- `CATEGORIES` from `types.ts` (legacy alias of `ALL_CATEGORIES`). -/
def CATEGORIES : List Category := ALL_CATEGORIES

/-- The `EntryType` union type (`'income' | 'expense'`). -/
inductive EntryType
  | income | expense
  deriving DecidableEq, Repr

/-- The `CategoryGroup` union type (`'needs' | 'lifestyle' | 'savings'`);
`Priority` in `types.ts` has the same three values. -/
inductive CategoryGroup
  | needs | lifestyle | savings
  deriving DecidableEq, Repr

/-- The `Entry` interface from `types.ts`.  The ISO `date` string is carried
together with its parse (`dateYear`, `dateMonth`), since the code only ever
inspects the date through `new Date(entry.date).getFullYear()/.getMonth()`
or uses the raw string. -/
structure Entry where
  id : String
  amount : ℚ
  type : EntryType
  category : Category
  categoryGroup : CategoryGroup
  priority : CategoryGroup
  date : String
  dateYear : ℕ
  dateMonth : ℕ
  note : Option String
  createdAt : ℤ
  deriving DecidableEq, Repr

/- ===== storage.ts ===== -/

/-- `getEntriesByMonth` from `storage.ts`: filter the stored entries to the
given year/month and sort by `createdAt` descending (the JS comparator
`(a, b) => b.createdAt - a.createdAt`). -/
def getEntriesByMonth (entries : List Entry) (year month : ℕ) : List Entry :=
  (entries.filter fun e => decide (e.dateYear = year ∧ e.dateMonth = month)).mergeSort
    fun a b => decide (b.createdAt ≤ a.createdAt)

/-- `Partial<Omit<Entry, 'id' | 'createdAt'>>`, the `updates` argument of
`updateEntry`.  A present `date` update carries its parse with it. -/
structure EntryUpdate where
  amount : Option ℚ
  type : Option EntryType
  category : Option Category
  categoryGroup : Option CategoryGroup
  priority : Option CategoryGroup
  date : Option (String × ℕ × ℕ)
  note : Option (Option String)

/-- The object spread `{ ...entries[index], ...updates }`: fields present in
`updates` win; `id` and `createdAt` cannot occur in `updates` by its type. -/
def applyUpdate (e : Entry) (u : EntryUpdate) : Entry :=
  { id := e.id
    amount := u.amount.getD e.amount
    type := u.type.getD e.type
    category := u.category.getD e.category
    categoryGroup := u.categoryGroup.getD e.categoryGroup
    priority := u.priority.getD e.priority
    date := (u.date.map fun d => d.1).getD e.date
    dateYear := (u.date.map fun d => d.2.1).getD e.dateYear
    dateMonth := (u.date.map fun d => d.2.2).getD e.dateMonth
    note := u.note.getD e.note
    createdAt := e.createdAt }

/-- `updateEntry` from `storage.ts`.  Returns the value the function returns
(`Entry | null`) together with the entry list as persisted afterwards
(unchanged when `findIndex` returns `-1`, since that path never calls
`saveEntries`). -/
def updateEntry (entries : List Entry) (id : String) (updates : EntryUpdate) :
    Option Entry × List Entry :=
  match entries.findIdx? fun e => decide (e.id = id) with
  | none => (none, entries)
  | some index =>
    let newEntries := List.modify (fun e => applyUpdate e updates) index entries
    (newEntries[index]?, newEntries)

/-- `deleteEntry` from `storage.ts`: filter the entry with the given id out;
if nothing was removed return `false` without saving. -/
def deleteEntry (entries : List Entry) (id : String) : Bool × List Entry :=
  let filtered := entries.filter fun e => decide (¬ e.id = id)
  if filtered.length = entries.length then (false, entries)
  else (true, filtered)

/- ===== analytics.ts : core metrics ===== -/

/-- `calculateSavingsRate` from `analytics.ts`. -/
def calculateSavingsRate (income expenses : ℚ) : ℤ :=
  if income ≤ 0 then 0
  else jsRound ((income - expenses) / income * 100)

/-- `getCategorySpending` (identical in `analytics.ts` and `budget.ts`):
total amount of expense entries of the category in the given month. -/
def getCategorySpending (entries : List Entry) (category : Category)
    (year month : ℕ) : ℚ :=
  ((getEntriesByMonth entries year month).filter
      fun e => decide (e.type = EntryType.expense ∧ e.category = category)).foldl
    (fun sum e => sum + e.amount) 0

/- ===== forecast service : weighted average ===== -/

/-- The `weightedSum` accumulator of `calculateWeightedAverage`'s
`forEach((value, index) => ...)` loop: `n` is `values.length` and `i` the
index of the first element of the remaining list. -/
def sumWeighted (n : ℕ) : ℕ → List ℚ → ℚ
  | _, [] => 0
  | i, v :: rest => v * ((n : ℚ) - (i : ℚ)) + sumWeighted n (i + 1) rest

/-- The `totalWeight` accumulator of the same loop. -/
def sumWeights (n : ℕ) : ℕ → List ℚ → ℚ
  | _, [] => 0
  | i, _ :: rest => ((n : ℚ) - (i : ℚ)) + sumWeights n (i + 1) rest

/-- `calculateWeightedAverage` from the forecast service: linear recency
weights `values.length - index`, result `Math.round(weightedSum / totalWeight)`
guarded by `totalWeight > 0`, and `0` for the empty list. -/
def calculateWeightedAverage (values : List ℚ) : ℤ :=
  if values.length = 0 then 0
  else
    let weightedSum := sumWeighted values.length 0 values
    let totalWeight := sumWeights values.length 0 values
    if 0 < totalWeight then jsRound (weightedSum / totalWeight) else 0

/-- The weighted average as the specification words it: the value at index 0
gets weight `length`, decreasing by 1 down to weight 1 for the last element;
the result is the weighted sum divided by the weight sum, rounded; the empty
list yields 0. -/
def weightedAverageSpec (values : List ℚ) : ℤ :=
  if values = [] then 0
  else
    let n := values.length
    jsRound ((∑ i ∈ Finset.range n, values.getD i 0 * ((n : ℚ) - (i : ℚ))) /
      (∑ i ∈ Finset.range n, ((n : ℚ) - (i : ℚ))))

/- ===== helper lemmas ===== -/

theorem sumWeighted_eq_sum (n : ℕ) (l : List ℚ) :
    ∀ i : ℕ, sumWeighted n i l =
      ∑ j ∈ Finset.range l.length, l.getD j 0 * ((n : ℚ) - ((i : ℚ) + (j : ℚ))) := by
  induction l with
  | nil => intro i; simp [sumWeighted]
  | cons v rest ih =>
    intro i
    rw [sumWeighted, ih (i + 1), List.length_cons, Finset.sum_range_succ']
    simp only [List.getD_cons_succ, List.getD_cons_zero]
    have hsum : ∀ j ∈ Finset.range rest.length,
        rest.getD j 0 * ((n : ℚ) - (((i + 1 : ℕ) : ℚ) + (j : ℚ))) =
        rest.getD j 0 * ((n : ℚ) - ((i : ℚ) + ((j + 1 : ℕ) : ℚ))) := by
      intro j _; push_cast; ring
    rw [Finset.sum_congr rfl hsum]
    push_cast
    ring

theorem sumWeights_eq_sum (n : ℕ) (l : List ℚ) :
    ∀ i : ℕ, sumWeights n i l =
      ∑ j ∈ Finset.range l.length, ((n : ℚ) - ((i : ℚ) + (j : ℚ))) := by
  induction l with
  | nil => intro i; simp [sumWeights]
  | cons v rest ih =>
    intro i
    rw [sumWeights, ih (i + 1), List.length_cons, Finset.sum_range_succ']
    have hsum : ∀ j ∈ Finset.range rest.length,
        ((n : ℚ) - (((i + 1 : ℕ) : ℚ) + (j : ℚ))) =
        ((n : ℚ) - ((i : ℚ) + ((j + 1 : ℕ) : ℚ))) := by
      intro j _; push_cast; ring
    rw [Finset.sum_congr rfl hsum]
    push_cast
    ring

theorem sumWeights_pos (l : List ℚ) (h : l ≠ []) :
    0 < sumWeights l.length 0 l := by
  rw [sumWeights_eq_sum]
  apply Finset.sum_pos
  · intro j hj
    rw [Finset.mem_range] at hj
    push_cast
    have : (j : ℚ) < l.length := by exact_mod_cast hj
    linarith
  · exact Finset.nonempty_range_iff.mpr (by simpa using h)

/- ===== Claim C7 ===== -/

/-- Claim C7: `calculateWeightedAverage` assigns the value at index 0 weight
equal to the list length, decreasing by 1 down to weight 1 for the last
element, and returns the weighted sum divided by the weight sum rounded to the
nearest integer; the empty list yields 0.  In particular it maps `[]` to `0`,
`[100]` to `100` and `[200, 100]` to `167`. -/
theorem weightedAverage_spec :
    (∀ values : List ℚ, calculateWeightedAverage values = weightedAverageSpec values)
    ∧ calculateWeightedAverage [] = 0
    ∧ calculateWeightedAverage [100] = 100
    ∧ calculateWeightedAverage [200, 100] = 167 := by
  refine ⟨fun values => ?_, by simp [calculateWeightedAverage], ?_, ?_⟩
  · by_cases h : values = []
    · subst h; simp [calculateWeightedAverage, weightedAverageSpec]
    · rw [calculateWeightedAverage, weightedAverageSpec, if_neg h,
        if_neg (by simpa using h),
        if_pos (sumWeights_pos values h),
        sumWeighted_eq_sum, sumWeights_eq_sum]
      simp
  · show calculateWeightedAverage [100] = 100
    rw [calculateWeightedAverage]
    norm_num [sumWeighted, sumWeights, jsRound]
  · show calculateWeightedAverage [200, 100] = 167
    rw [calculateWeightedAverage]
    norm_num [sumWeighted, sumWeights, jsRound]

/- ===== Claim C8 ===== -/

/-- Claim C8: `calculateSavingsRate income expenses` returns 0 whenever
`income ≤ 0` and otherwise `round(100 * (income - expenses) / income)`;
in particular `calculateSavingsRate 1000 0 = 100`. -/
theorem savingsRate_spec :
    (∀ income expenses : ℚ,
      calculateSavingsRate income expenses =
        if income ≤ 0 then 0 else jsRound (100 * (income - expenses) / income))
    ∧ calculateSavingsRate 1000 0 = 100 := by
  constructor
  · intro income expenses
    rw [calculateSavingsRate]
    rcases le_or_lt income 0 with h | h
    · rw [if_pos h, if_pos h]
    · rw [if_neg (not_le.mpr h), if_neg (not_le.mpr h), div_mul_eq_mul_div, mul_comm]
  · rw [calculateSavingsRate]
    norm_num [jsRound]

/- ===== analytics.ts : trend analysis ===== -/

/-- The fields of the `getMonthlyData` summary that the trend functions
read. -/
structure MonthlyTotals where
  totalIncome : ℚ
  totalNeeds : ℚ
  totalWants : ℚ
  deriving DecidableEq, Repr

/-- The `expenses` array built by `getExpenseTrend`: entry `i` is the total
expense (`totalNeeds + totalWants`) of the month `i` months ago, newest first.
The wall-clock/storage reads (`getMonthDate`, `getMonthlyData`) are abstracted
into the `monthlyData` argument. -/
def expensesSeries (monthlyData : ℕ → MonthlyTotals) (months : ℕ) : List ℚ :=
  (List.range months).map fun i => (monthlyData i).totalNeeds + (monthlyData i).totalWants

/-- The `savingsRates` array built by `getSavingsTrend`, newest first. -/
def savingsRateSeries (monthlyData : ℕ → MonthlyTotals) (months : ℕ) : List ℚ :=
  (List.range months).map fun i =>
    ((calculateSavingsRate (monthlyData i).totalIncome
        ((monthlyData i).totalNeeds + (monthlyData i).totalWants) : ℤ) : ℚ)

/-- The `risingCount` / `improvingCount` loop of the trend functions: the
number of indices `i` with `values[i] > values[i + 1]` (the newer value
strictly greater than the older one). -/
def pairUps (values : List ℚ) : ℕ :=
  (values.zip values.tail).countP fun p => decide (p.1 > p.2)

/-- The `fallingCount` / `decliningCount` loop: the number of indices `i`
with `values[i] < values[i + 1]`. -/
def pairDowns (values : List ℚ) : ℕ :=
  (values.zip values.tail).countP fun p => decide (p.1 < p.2)

/-- The `'rising' | 'falling' | 'stable'` result type of `getExpenseTrend`. -/
inductive ExpenseTrend
  | rising | falling | stable
  deriving DecidableEq, Repr

/-- The `'improving' | 'declining' | 'stable'` result type of
`getSavingsTrend`. -/
inductive SavingsTrend
  | improving | declining | stable
  deriving DecidableEq, Repr

/-- `getExpenseTrend` from `analytics.ts`: the thresholds are
`Math.floor(expenses.length / 2)`, which is `months / 2` in ℕ. -/
def getExpenseTrend (monthlyData : ℕ → MonthlyTotals) (months : ℕ) : ExpenseTrend :=
  if (expensesSeries monthlyData months).length < 2 then ExpenseTrend.stable
  else if pairUps (expensesSeries monthlyData months) ≥
      (expensesSeries monthlyData months).length / 2 then ExpenseTrend.rising
  else if pairDowns (expensesSeries monthlyData months) ≥
      (expensesSeries monthlyData months).length / 2 then ExpenseTrend.falling
  else ExpenseTrend.stable

/-- `getSavingsTrend` from `analytics.ts`: the same vote over the
savings-rate sequence. -/
def getSavingsTrend (monthlyData : ℕ → MonthlyTotals) (months : ℕ) : SavingsTrend :=
  if (savingsRateSeries monthlyData months).length < 2 then SavingsTrend.stable
  else if pairUps (savingsRateSeries monthlyData months) ≥
      (savingsRateSeries monthlyData months).length / 2 then SavingsTrend.improving
  else if pairDowns (savingsRateSeries monthlyData months) ≥
      (savingsRateSeries monthlyData months).length / 2 then SavingsTrend.declining
  else SavingsTrend.stable

/-- Concrete month data refuting the ceil(N/2) threshold: totals
1, 0, 0 (newest first). -/
def trendCexData : ℕ → MonthlyTotals := fun i =>
  if i = 0 then { totalIncome := 0, totalNeeds := 1, totalWants := 0 }
  else { totalIncome := 0, totalNeeds := 0, totalWants := 0 }

/- ===== Claim C1 ===== -/

/-- Claim C1, counterexample: for `N = 3` and monthly totals `1, 0, 0`
(newest first) exactly 1 of the 2 adjacent comparisons is strictly rising,
which is below `⌈3/2⌉ = 2`, yet `getExpenseTrend` returns `rising` (its
actual threshold is `Math.floor(N/2) = 1`).  So `rising` does not hold
exactly when at least `⌈N/2⌉` comparisons rise. -/
theorem trend_majority_counterexample :
    ¬ ((getExpenseTrend trendCexData 3 = ExpenseTrend.rising) ↔
        2 ≤ pairUps (expensesSeries trendCexData 3)) := by
  have hser : expensesSeries trendCexData 3 = [1, 0, 0] := by
    simp [expensesSeries, trendCexData, List.range_succ]
  have hup : pairUps (expensesSeries trendCexData 3) = 1 := by
    rw [hser]; decide
  have hres : getExpenseTrend trendCexData 3 = ExpenseTrend.rising := by
    rw [getExpenseTrend, hser]
    decide
  rw [hres, hup]
  decide

/-- Claim C1 (amended): for every window `N ≥ 2`, `getExpenseTrend N` returns
`rising` exactly when at least `⌊N/2⌋` (not `⌈N/2⌉`) of the `N − 1`
adjacent-pair comparisons over the last `N` monthly expense totals (newest
first) have the newer total strictly greater than the older one; it returns
`falling` exactly when the rising threshold is not met and at least `⌊N/2⌋`
comparisons are strictly smaller; otherwise `stable`.  The same
`⌊N/2⌋`-threshold rule governs `getSavingsTrend` over the savings-rate
sequence. -/
theorem trend_majority (monthlyData : ℕ → MonthlyTotals) (months : ℕ)
    (h : 2 ≤ months) :
    (getExpenseTrend monthlyData months = ExpenseTrend.rising ↔
      months / 2 ≤ pairUps (expensesSeries monthlyData months))
    ∧ (getExpenseTrend monthlyData months = ExpenseTrend.falling ↔
      pairUps (expensesSeries monthlyData months) < months / 2 ∧
        months / 2 ≤ pairDowns (expensesSeries monthlyData months))
    ∧ (getExpenseTrend monthlyData months = ExpenseTrend.stable ↔
      pairUps (expensesSeries monthlyData months) < months / 2 ∧
        pairDowns (expensesSeries monthlyData months) < months / 2)
    ∧ (getSavingsTrend monthlyData months = SavingsTrend.improving ↔
      months / 2 ≤ pairUps (savingsRateSeries monthlyData months))
    ∧ (getSavingsTrend monthlyData months = SavingsTrend.declining ↔
      pairUps (savingsRateSeries monthlyData months) < months / 2 ∧
        months / 2 ≤ pairDowns (savingsRateSeries monthlyData months))
    ∧ (getSavingsTrend monthlyData months = SavingsTrend.stable ↔
      pairUps (savingsRateSeries monthlyData months) < months / 2 ∧
        pairDowns (savingsRateSeries monthlyData months) < months / 2) := by
  have hlen : (expensesSeries monthlyData months).length = months := by
    simp [expensesSeries]
  have hlen2 : (savingsRateSeries monthlyData months).length = months := by
    simp [savingsRateSeries]
  have h2 : ¬ (months < 2) := by omega
  rw [getExpenseTrend, getSavingsTrend, hlen, hlen2, if_neg h2, if_neg h2]
  constructor
  · split_ifs with hA hB <;> simp_all
  constructor
  · split_ifs with hA hB <;> simp_all
  constructor
  · split_ifs with hA hB <;> simp_all
  constructor
  · split_ifs with hA hB <;> simp_all
  constructor
  · split_ifs with hA hB <;> simp_all
  · split_ifs with hA hB <;> simp_all

/-- Concrete month data for the witness: totals 2, 1 (newest first). -/
def trendWitnessData : ℕ → MonthlyTotals := fun i =>
  if i = 0 then { totalIncome := 0, totalNeeds := 2, totalWants := 0 }
  else { totalIncome := 0, totalNeeds := 1, totalWants := 0 }

/-- Witness for the amended Claim C1 at `N = 2` and totals `2, 1`. -/
theorem trend_majority_witness :
    getExpenseTrend trendWitnessData 2 = ExpenseTrend.rising ↔
      2 / 2 ≤ pairUps (expensesSeries trendWitnessData 2) :=
  (trend_majority trendWitnessData 2 (by decide)).1

/- ===== streak service ===== -/

/-- The `StreakData` record from the streak service.  Calendar dates are
modelled as day numbers (ℤ): `today` is passed explicitly, yesterday is
`today - 1`, and the empty string `''` that marks "no entry yet" is modelled
by `none`. -/
structure StreakData where
  currentStreak : ℕ
  longestStreak : ℕ
  lastEntryDate : Option ℤ
  totalDaysWithEntries : ℕ
  deriving DecidableEq, Repr

/-- `updateStreak` from the streak service: an entry dated today or yesterday
continues or starts the streak, an older entry leaves the record untouched. -/
def updateStreak (today entryDate : ℤ) (streak : StreakData) : StreakData :=
  if entryDate = today ∨ entryDate = today - 1 then
    let streak1 :=
      if streak.lastEntryDate = some (today - 1) ∨ streak.lastEntryDate = none then
        { streak with currentStreak := streak.currentStreak + 1 }
      else if streak.lastEntryDate ≠ some today then
        { streak with currentStreak := 1 }
      else streak
    { currentStreak := streak1.currentStreak
      longestStreak := max streak1.longestStreak streak1.currentStreak
      lastEntryDate := some today
      totalDaysWithEntries := streak1.totalDaysWithEntries + 1 }
  else streak

/- ===== Claim C4 ===== -/

/-- Claim C4: for an entry dated today or yesterday, `updateStreak`
increments `currentStreak` when the stored `lastEntryDate` is yesterday or
empty, resets it to 1 when it is neither yesterday, empty nor today, sets
`lastEntryDate` to today regardless, and updates `longestStreak` to
`max(longestStreak, currentStreak)`.  From the empty initial state an entry
dated today yields `currentStreak = longestStreak = 1`, and a `lastEntryDate`
two or more days stale resets `currentStreak` to 1. -/
theorem updateStreak_spec (today entryDate : ℤ) (s : StreakData)
    (h : entryDate = today ∨ entryDate = today - 1) :
    ((updateStreak today entryDate s).currentStreak =
      if s.lastEntryDate = some (today - 1) ∨ s.lastEntryDate = none then
        s.currentStreak + 1
      else if s.lastEntryDate ≠ some today then 1
      else s.currentStreak)
    ∧ (updateStreak today entryDate s).lastEntryDate = some today
    ∧ (updateStreak today entryDate s).longestStreak =
        max s.longestStreak (updateStreak today entryDate s).currentStreak
    ∧ updateStreak today today
        { currentStreak := 0, longestStreak := 0, lastEntryDate := none,
          totalDaysWithEntries := 0 } =
        { currentStreak := 1, longestStreak := 1, lastEntryDate := some today,
          totalDaysWithEntries := 1 }
    ∧ (∀ (d : ℤ) (c l t : ℕ), d ≤ today - 2 →
        (updateStreak today today
          { currentStreak := c, longestStreak := l, lastEntryDate := some d,
            totalDaysWithEntries := t }).currentStreak = 1) := by
  refine ⟨?_, ?_, ?_, ?_, ?_⟩
  · by_cases h1 : s.lastEntryDate = some (today - 1) ∨ s.lastEntryDate = none
    · simp [updateStreak, h, h1]
    · by_cases h2 : s.lastEntryDate ≠ some today
      · simp [updateStreak, h, h1, h2]
      · simp [updateStreak, h, h1, h2]
  · simp [updateStreak, h]
  · by_cases h1 : s.lastEntryDate = some (today - 1) ∨ s.lastEntryDate = none
    · simp [updateStreak, h, h1]
    · by_cases h2 : s.lastEntryDate ≠ some today
      · simp [updateStreak, h, h1, h2]
      · simp [updateStreak, h, h1, h2]
  · simp [updateStreak]
  · intro d c l t hd
    have hd1 : d ≠ today - 1 := by omega
    have hd2 : d ≠ today := by omega
    simp [updateStreak, hd1, hd2]

/-- Witness for Claim C4 at `today = 10`, an entry dated yesterday, and a
streak record whose `lastEntryDate` is yesterday. -/
theorem updateStreak_spec_witness :
    (updateStreak 10 9
      { currentStreak := 2, longestStreak := 5, lastEntryDate := some 9,
        totalDaysWithEntries := 3 }).lastEntryDate = some 10 :=
  (updateStreak_spec 10 9
    { currentStreak := 2, longestStreak := 5, lastEntryDate := some 9,
      totalDaysWithEntries := 3 } (by decide)).2.1

/- ===== Claim C10 ===== -/

/-- Claim C10: when the stored `lastEntryDate` already equals today (and the
record satisfies the invariant `currentStreak ≤ longestStreak` that every
reachable record satisfies), `updateStreak` with an entry dated today leaves
`currentStreak`, `longestStreak` and `lastEntryDate` unchanged but still
increments `totalDaysWithEntries`; two same-day calls from the empty initial
state already give `totalDaysWithEntries = 2` although only one distinct day
has entries. -/
theorem updateStreak_same_day (today : ℤ) (s : StreakData)
    (h1 : s.lastEntryDate = some today) (h2 : s.currentStreak ≤ s.longestStreak) :
    (updateStreak today today s).currentStreak = s.currentStreak
    ∧ (updateStreak today today s).longestStreak = s.longestStreak
    ∧ (updateStreak today today s).lastEntryDate = s.lastEntryDate
    ∧ (updateStreak today today s).totalDaysWithEntries = s.totalDaysWithEntries + 1
    ∧ (updateStreak today today (updateStreak today today
        { currentStreak := 0, longestStreak := 0, lastEntryDate := none,
          totalDaysWithEntries := 0 })).totalDaysWithEntries = 2 := by
  have hne : today ≠ today - 1 := by omega
  have hcond : ¬ (s.lastEntryDate = some (today - 1) ∨ s.lastEntryDate = none) := by
    rw [h1]; simp [hne]
  have hcond2 : ¬ (s.lastEntryDate ≠ some today) := by rw [h1]; simp
  refine ⟨?_, ?_, ?_, ?_, ?_⟩
  · simp [updateStreak, hcond, hcond2]
  · simp [updateStreak, hcond, hcond2, max_eq_left h2]
  · simp [updateStreak, hcond, hcond2, h1]
  · simp [updateStreak, hcond, hcond2]
  · simp [updateStreak, hne]

/-- Witness for Claim C10 at `today = 7` and a record last updated today. -/
theorem updateStreak_same_day_witness :
    (updateStreak 7 7
      { currentStreak := 3, longestStreak := 4, lastEntryDate := some 7,
        totalDaysWithEntries := 6 }).totalDaysWithEntries = 6 + 1 :=
  (updateStreak_same_day 7
    { currentStreak := 3, longestStreak := 4, lastEntryDate := some 7,
      totalDaysWithEntries := 6 } rfl (by decide)).2.2.2.1

/- ===== Claim C9 ===== -/

/-- Claim C9: for an id that occurs in no stored entry, `updateEntry` returns
`null` and `deleteEntry` returns `false`, and in both cases the persisted
entry list is left exactly unchanged (the failure paths never save). -/
theorem storage_missing_id (entries : List Entry) (id : String) (u : EntryUpdate)
    (h : ∀ e ∈ entries, e.id ≠ id) :
    updateEntry entries id u = (none, entries)
    ∧ deleteEntry entries id = (false, entries) := by
  constructor
  · have hidx : (entries.findIdx? fun e => decide (e.id = id)) = none := by
      rw [List.findIdx?_eq_none_iff]
      intro e he
      simpa using h e he
    rw [updateEntry, hidx]
  · have hfil : (entries.filter fun e => decide (¬ e.id = id)) = entries := by
      rw [List.filter_eq_self]
      intro e he
      simpa using h e he
    simp only [deleteEntry, hfil]
    simp

/-- A concrete entry used by several witnesses. -/
def sampleEntry : Entry :=
  { id := "e1", amount := 500, type := EntryType.expense,
    category := Category.Shopping, categoryGroup := CategoryGroup.lifestyle,
    priority := CategoryGroup.lifestyle, date := "2024-01-15",
    dateYear := 2024, dateMonth := 0, note := some "gift", createdAt := 1 }

/-- An update object with no field present. -/
def emptyUpdate : EntryUpdate :=
  { amount := none, type := none, category := none, categoryGroup := none,
    priority := none, date := none, note := none }

/-- Witness for Claim C9: the store holding only `sampleEntry` and the
missing id `"zzz"`. -/
theorem storage_missing_id_witness :
    updateEntry [sampleEntry] "zzz" emptyUpdate = (none, [sampleEntry])
    ∧ deleteEntry [sampleEntry] "zzz" = (false, [sampleEntry]) :=
  storage_missing_id [sampleEntry] "zzz" emptyUpdate (by decide)

/- ===== storage.ts : CSV export ===== -/

/-- JavaScript `Array.prototype.join(sep)`. -/
def joinStr (sep : String) : List String → String
  | [] => ""
  | [x] => x
  | x :: y :: rest => x ++ sep ++ joinStr sep (y :: rest)

/-- The string value of an `EntryType` (the TypeScript union literal). -/
def entryTypeToString : EntryType → String
  | EntryType.income => "income"
  | EntryType.expense => "expense"

/-- The string value of a `Category` (the TypeScript union literal). -/
def categoryToString : Category → String
  | Category.FoodGroceries => "FoodGroceries"
  | Category.Meals => "Meals"
  | Category.Transport => "Transport"
  | Category.Fuel => "Fuel"
  | Category.RentUtilities => "RentUtilities"
  | Category.Education => "Education"
  | Category.HealthHygiene => "HealthHygiene"
  | Category.EatingOut => "EatingOut"
  | Category.Entertainment => "Entertainment"
  | Category.Shopping => "Shopping"
  | Category.TravelTrips => "TravelTrips"
  | Category.Hobbies => "Hobbies"
  | Category.Gifts => "Gifts"
  | Category.EmergencyFund => "EmergencyFund"
  | Category.Gadgets => "Gadgets"
  | Category.FutureGoals => "FutureGoals"

/-- The string value of a `CategoryGroup` / `Priority`. -/
def priorityToString : CategoryGroup → String
  | CategoryGroup.needs => "needs"
  | CategoryGroup.lifestyle => "lifestyle"
  | CategoryGroup.savings => "savings"

/-- Models `entry.amount.toString()` (JavaScript number formatting); the CSV
claims depend only on each amount rendering to some string. -/
def amountToString (q : ℚ) : String :=
  if q.den = 1 then toString q.num else toString q.num ++ "/" ++ toString q.den

/-- The `headers` array of `exportToCSV`. -/
def csvHeaders : List String :=
  ["Date", "Type", "Category", "Priority", "Amount", "Note"]

/-- One element of the `rows` array of `exportToCSV`: the six cell strings of
an entry, in source order (`entry.note || ''` renders a missing note as the
empty string). -/
def entryRow (e : Entry) : List String :=
  [e.date, entryTypeToString e.type, categoryToString e.category,
   priorityToString e.priority, amountToString e.amount, e.note.getD ""]

/-- The template literal `"${cell}"` that `exportToCSV` wraps each data cell
in. -/
def quoteCell (cell : String) : String := "\"" ++ cell ++ "\""

/-- The `csvContent` line array of `exportToCSV`:
`[headers.join(','), ...rows.map(row => row.map(cell => "..").join(','))]`.
Note the header row is joined without quoting. -/
def csvContentLines (entries : List Entry) : List String :=
  joinStr "," csvHeaders ::
    (entries.map entryRow).map fun row => joinStr "," (row.map quoteCell)

/-- `exportToCSV` from `storage.ts`: on an empty store it only alerts
(modelled as `none`); otherwise the produced file content is the newline-join
of `csvContentLines`. -/
def exportToCSV (entries : List Entry) : Option String :=
  if entries = [] then none
  else some (joinStr "\n" (csvContentLines entries))

/- ===== Claim C2 ===== -/

theorem quoted_join_ne_header (fields : List String) :
    joinStr "," (fields.map quoteCell) ≠ "Date,Type,Category,Priority,Amount,Note" := by
  intro h
  cases fields with
  | nil => exact (by decide : ("" : String) ≠ "Date,Type,Category,Priority,Amount,Note") h
  | cons f rest =>
    have hq : (joinStr "," ((f :: rest).map quoteCell)).data.head? = some '"' := by
      cases rest with
      | nil =>
        show ((("\"" ++ f) ++ "\"").data).head? = some '"'
        rw [String.data_append, String.data_append]
        rfl
      | cons g rest2 =>
        show (((("\"" ++ f) ++ "\"") ++ "," ++ _).data).head? = some '"'
        rw [String.data_append, String.data_append, String.data_append]
        rfl
    rw [h] at hq
    exact (by decide :
      ¬ ("Date,Type,Category,Priority,Amount,Note".data).head? = some '"') hq

/-- Claim C2, counterexample: on the one-entry store `[sampleEntry]` the
first output line is the header `Date,Type,Category,Priority,Amount,Note`,
whose fields are not enclosed in double quotes (no comma-join of quoted
fields equals it), refuting "every field in every row (header fields
included) is enclosed in double quotes". -/
theorem csv_header_unquoted_counterexample :
    ¬ ∀ line ∈ csvContentLines [sampleEntry], ∃ fields : List String,
        line = joinStr "," (fields.map quoteCell) := by
  intro hall
  obtain ⟨fields, hf⟩ := hall (joinStr "," csvHeaders) (List.mem_cons_self _ _)
  apply quoted_join_ne_header fields
  rw [← hf]
  rfl

/-- Claim C2 (amended): for every non-empty entry list the CSV export is the
newline-join of a header row followed by exactly n data rows; the header row
is the comma-join of the *unquoted* column names Date, Type, Category,
Priority, Amount, Note, while every field of every data row is enclosed in
double quotes; the data columns are date, type, category, priority, amount,
note in that order. -/
theorem csv_export_shape (entries : List Entry) (h : entries ≠ []) :
    exportToCSV entries = some (joinStr "\n" (csvContentLines entries))
    ∧ (csvContentLines entries).length = entries.length + 1
    ∧ (csvContentLines entries).head? = some (joinStr "," csvHeaders)
    ∧ (∀ e ∈ entries,
        joinStr "," ((entryRow e).map quoteCell) ∈ (csvContentLines entries).tail)
    ∧ (∀ line ∈ (csvContentLines entries).tail, ∃ e ∈ entries,
        line = joinStr "," ((entryRow e).map quoteCell)) := by
  refine ⟨by rw [exportToCSV, if_neg h], by simp [csvContentLines], rfl, ?_, ?_⟩
  · intro e he
    simp only [csvContentLines, List.tail_cons, List.map_map]
    exact List.mem_map.mpr ⟨e, he, rfl⟩
  · intro line hline
    simp only [csvContentLines, List.tail_cons, List.map_map] at hline
    obtain ⟨e, he, hrow⟩ := List.mem_map.mp hline
    exact ⟨e, he, hrow.symm⟩

/-- Witness for the amended Claim C2 on the one-entry store. -/
theorem csv_export_shape_witness :
    (csvContentLines [sampleEntry]).length = 1 + 1 :=
  (csv_export_shape [sampleEntry] (by simp)).2.1

/- ===== budget.ts ===== -/

/-- The `Budget` interface: one row per category and month. -/
structure Budget where
  category : Category
  amount : ℚ
  month : ℕ
  year : ℕ
  deriving DecidableEq, Repr

/-- A `{ month, year }` pair as stored under `BUDGET_MONTH_KEY` and as
produced by `new Date()` (month 0-based). -/
structure MonthKey where
  year : ℕ
  month : ℕ
  deriving DecidableEq, Repr

/-- The two budget-related `localStorage` keys: the budget rows
(`BUDGET_KEY`) and the last tracked month (`BUDGET_MONTH_KEY`, absent =
`none`). -/
structure BudgetState where
  budgets : List Budget
  lastBudgetMonth : Option MonthKey
  deriving DecidableEq, Repr

/-- `updateLastBudgetMonth` from `budget.ts`. -/
def updateLastBudgetMonth (today : MonthKey) (s : BudgetState) : BudgetState :=
  { s with lastBudgetMonth := some today }

/-- `checkAndResetMonthlyBudgets` from `budget.ts`: when the wall-clock month
differs from the last tracked month, copy every budget row of the last
tracked month to the current month (keeping all old rows) and advance the
marker. -/
def checkAndResetMonthlyBudgets (today : MonthKey) (s : BudgetState) : BudgetState :=
  match s.lastBudgetMonth with
  | none => s
  | some last =>
    if last.month ≠ today.month ∨ last.year ≠ today.year then
      let lastMonthBudgets := s.budgets.filter fun b =>
        decide (b.month = last.month ∧ b.year = last.year)
      let newBudgets := lastMonthBudgets.map fun b =>
        { category := b.category, amount := b.amount,
          month := today.month, year := today.year : Budget }
      updateLastBudgetMonth today { s with budgets := s.budgets ++ newBudgets }
    else s

/-- `getBudgets` from `budget.ts`: runs the rollover check first, then reads
the rows; returns the read value together with the state as persisted. -/
def getBudgets (today : MonthKey) (s : BudgetState) : List Budget × BudgetState :=
  ((checkAndResetMonthlyBudgets today s).budgets, checkAndResetMonthlyBudgets today s)

/- ===== Claim C3 ===== -/

/-- Claim C3: when a budget read happens in a month different from the
recorded last-tracked month, every budget row of the last-tracked month is
carried forward as a same-category same-amount row for the current month,
no pre-existing row is deleted or modified (the new list is the old list
plus the carried rows), the marker advances to the current month, and a
second read in the same month changes nothing. -/
theorem budget_rollover (s : BudgetState) (today last : MonthKey)
    (hlast : s.lastBudgetMonth = some last) (hne : last ≠ today) :
    (getBudgets today s).1 =
      s.budgets ++ ((s.budgets.filter fun b =>
          decide (b.month = last.month ∧ b.year = last.year)).map fun b =>
        { category := b.category, amount := b.amount,
          month := today.month, year := today.year : Budget })
    ∧ (getBudgets today s).2.budgets = (getBudgets today s).1
    ∧ (getBudgets today s).2.lastBudgetMonth = some today
    ∧ (∀ b ∈ s.budgets, b ∈ (getBudgets today s).1)
    ∧ (∀ b ∈ s.budgets, b.month = last.month → b.year = last.year →
        ({ category := b.category, amount := b.amount,
           month := today.month, year := today.year : Budget }) ∈ (getBudgets today s).1)
    ∧ getBudgets today ((getBudgets today s).2) =
        ((getBudgets today s).1, (getBudgets today s).2) := by
  have hcond : last.month ≠ today.month ∨ last.year ≠ today.year := by
    rcases last with ⟨ly, lm⟩
    rcases today with ⟨ty, tm⟩
    by_contra hc
    push_neg at hc
    exact hne (by simp_all)
  have hstep : checkAndResetMonthlyBudgets today s =
      { budgets := s.budgets ++ ((s.budgets.filter fun b =>
            decide (b.month = last.month ∧ b.year = last.year)).map fun b =>
          { category := b.category, amount := b.amount,
            month := today.month, year := today.year : Budget }),
        lastBudgetMonth := some today } := by
    rw [checkAndResetMonthlyBudgets, hlast]
    simp [updateLastBudgetMonth, hcond]
  have hid : checkAndResetMonthlyBudgets today (checkAndResetMonthlyBudgets today s) =
      checkAndResetMonthlyBudgets today s := by
    rw [hstep, checkAndResetMonthlyBudgets]
    simp
  refine ⟨?_, ?_, ?_, ?_, ?_, ?_⟩
  · simp [getBudgets, hstep]
  · simp [getBudgets]
  · simp [getBudgets, hstep]
  · intro b hb
    simp only [getBudgets, hstep, List.mem_append]
    exact Or.inl hb
  · intro b hb hm hy
    simp only [getBudgets, hstep, List.mem_append]
    refine Or.inr (List.mem_map.mpr ⟨b, ?_, rfl⟩)
    rw [List.mem_filter]
    exact ⟨hb, by simp [hm, hy]⟩
  · simp [getBudgets, hid]

/-- A concrete pre-rollover budget state for the witness. -/
def rolloverState : BudgetState :=
  { budgets := [{ category := Category.Shopping, amount := 100, month := 0, year := 2024 }],
    lastBudgetMonth := some { year := 2024, month := 0 } }

/-- Witness for Claim C3: one Shopping budget tracked in month 0 of 2024,
read again in month 1. -/
theorem budget_rollover_witness :
    (getBudgets { year := 2024, month := 1 } rolloverState).1 =
      rolloverState.budgets ++ ((rolloverState.budgets.filter fun b =>
          decide (b.month = 0 ∧ b.year = 2024)).map fun b =>
        { category := b.category, amount := b.amount,
          month := 1, year := 2024 : Budget }) :=
  (budget_rollover rolloverState { year := 2024, month := 1 }
    { year := 2024, month := 0 } rfl (by decide)).1

/- ===== budget.ts : status ===== -/

/-- `getBudgetForCategory` from `budget.ts`: the amount of the first budget
row matching category and current month/year, else 0.  (The source reads
`budget?.amount || 0`; for a found row the `|| 0` maps amount 0 to 0, which
is the identity, so returning `b.amount` is exact.) -/
def getBudgetForCategory (budgets : List Budget) (today : MonthKey)
    (category : Category) : ℚ :=
  match budgets.find? fun b =>
      decide (b.category = category ∧ b.month = today.month ∧ b.year = today.year) with
  | some b => b.amount
  | none => 0

/-- The `'green' | 'yellow' | 'red'` status values. -/
inductive BudgetTier
  | green | yellow | red
  deriving DecidableEq, Repr

/-- The status ladder of `getBudgetStatus` (and `getTotalBudgetSummary`):
`percentage ≥ 90 → red`, `≥ 70 → yellow`, else `green`. -/
def statusOfPercentage (percentage : ℚ) : BudgetTier :=
  if percentage ≥ 90 then BudgetTier.red
  else if percentage ≥ 70 then BudgetTier.yellow
  else BudgetTier.green

/-- The `CategoryBudgetStatus` interface. -/
structure CategoryBudgetStatus where
  category : Category
  budgetAmount : ℚ
  spentAmount : ℚ
  remainingAmount : ℚ
  percentage : ℚ
  status : BudgetTier
  deriving DecidableEq, Repr

/-- `getBudgetStatus` from `budget.ts`: `null` when no budget is set for the
current month, otherwise the spent/remaining/percentage record. -/
def getBudgetStatus (entries : List Entry) (budgets : List Budget)
    (today : MonthKey) (category : Category) : Option CategoryBudgetStatus :=
  let budgetAmount := getBudgetForCategory budgets today category
  if budgetAmount = 0 then none
  else
    let spentAmount := getCategorySpending entries category today.year today.month
    let remainingAmount := budgetAmount - spentAmount
    let percentage := spentAmount / budgetAmount * 100
    some { category := category, budgetAmount := budgetAmount,
           spentAmount := spentAmount, remainingAmount := remainingAmount,
           percentage := percentage, status := statusOfPercentage percentage }

/-- `getAllBudgetStatuses` from `budget.ts`: the per-category statuses with
the `null`s filtered out. -/
def getAllBudgetStatuses (entries : List Entry) (budgets : List Budget)
    (today : MonthKey) : List CategoryBudgetStatus :=
  (CATEGORIES.map fun cat => getBudgetStatus entries budgets today cat).filterMap id

theorem getBudgetStatus_category (entries : List Entry) (budgets : List Budget)
    (today : MonthKey) (c : Category) (st : CategoryBudgetStatus)
    (h : getBudgetStatus entries budgets today c = some st) : st.category = c := by
  rw [getBudgetStatus] at h
  by_cases hb : getBudgetForCategory budgets today c = 0
  · rw [if_pos hb] at h
    exact absurd h (by simp)
  · rw [if_neg hb] at h
    simp only [Option.some.injEq] at h
    rw [← h]

/- ===== Claim C6 ===== -/

/-- Claim C6: for a category whose current-month budget is nonzero, the
status row has `percentage = 100 * spent / budget` and the tier is red for
`percentage ≥ 90`, yellow for `70 ≤ percentage < 90`, green below 70
(89.9 is yellow, 90 red, 69.9 green, 70 yellow); a category with no budget
row for the current month yields `null` and hence no row among the statuses. -/
theorem budget_status_spec (entries : List Entry) (budgets : List Budget)
    (today : MonthKey) (category : Category) :
    (getBudgetForCategory budgets today category ≠ 0 →
      getBudgetStatus entries budgets today category =
        some { category := category
               budgetAmount := getBudgetForCategory budgets today category
               spentAmount := getCategorySpending entries category today.year today.month
               remainingAmount := getBudgetForCategory budgets today category -
                 getCategorySpending entries category today.year today.month
               percentage := 100 * getCategorySpending entries category today.year today.month /
                 getBudgetForCategory budgets today category
               status := statusOfPercentage
                 (100 * getCategorySpending entries category today.year today.month /
                   getBudgetForCategory budgets today category) })
    ∧ ((∀ b ∈ budgets,
        ¬ (b.category = category ∧ b.month = today.month ∧ b.year = today.year)) →
        getBudgetStatus entries budgets today category = none)
    ∧ (getBudgetStatus entries budgets today category = none →
        ∀ st ∈ getAllBudgetStatuses entries budgets today, st.category ≠ category)
    ∧ statusOfPercentage (899/10) = BudgetTier.yellow
    ∧ statusOfPercentage 90 = BudgetTier.red
    ∧ statusOfPercentage (699/10) = BudgetTier.green
    ∧ statusOfPercentage 70 = BudgetTier.yellow := by
  refine ⟨?_, ?_, ?_, ?_, ?_, ?_, ?_⟩
  · intro h
    have hperc : getCategorySpending entries category today.year today.month /
        getBudgetForCategory budgets today category * 100 =
        100 * getCategorySpending entries category today.year today.month /
          getBudgetForCategory budgets today category := by
      rw [div_mul_eq_mul_div, mul_comm]
    rw [getBudgetStatus]
    simp only [if_neg h, hperc]
  · intro hnone
    have hfind : (budgets.find? fun b =>
        decide (b.category = category ∧ b.month = today.month ∧ b.year = today.year)) =
        none := by
      rw [List.find?_eq_none]
      intro b hb
      simpa using hnone b hb
    have hzero : getBudgetForCategory budgets today category = 0 := by
      rw [getBudgetForCategory, hfind]
    rw [getBudgetStatus]
    simp [hzero]
  · intro hnone st hst
    rw [getAllBudgetStatuses] at hst
    obtain ⟨opt, hopt, hsome⟩ := List.mem_filterMap.mp hst
    obtain ⟨c, _, hc⟩ := List.mem_map.mp hopt
    intro heq
    have hcc : st.category = c := getBudgetStatus_category _ _ _ _ _ (hc.symm ▸ hsome)
    rw [heq] at hcc
    rw [← hcc] at hc
    rw [← hc, hnone] at hsome
    exact absurd hsome (by simp)
  · rw [statusOfPercentage, if_neg (by norm_num), if_pos (by norm_num)]
  · rw [statusOfPercentage, if_pos (by norm_num)]
  · rw [statusOfPercentage, if_neg (by norm_num), if_neg (by norm_num)]
  · rw [statusOfPercentage, if_neg (by norm_num), if_pos (by norm_num)]

/-- The budget list used by the Claim C6 witness. -/
def witnessBudgets : List Budget :=
  [{ category := Category.Shopping, amount := 100, month := 0, year := 2024 }]

/-- Witness for Claim C6: a 100-unit Shopping budget in month 0 of 2024 and
an empty entry store. -/
theorem budget_status_spec_witness :
    getBudgetStatus [] witnessBudgets { year := 2024, month := 0 } Category.Shopping =
      some { category := Category.Shopping
             budgetAmount := getBudgetForCategory witnessBudgets
               { year := 2024, month := 0 } Category.Shopping
             spentAmount := getCategorySpending [] Category.Shopping 2024 0
             remainingAmount := getBudgetForCategory witnessBudgets
               { year := 2024, month := 0 } Category.Shopping -
               getCategorySpending [] Category.Shopping 2024 0
             percentage := 100 * getCategorySpending [] Category.Shopping 2024 0 /
               getBudgetForCategory witnessBudgets { year := 2024, month := 0 } Category.Shopping
             status := statusOfPercentage
               (100 * getCategorySpending [] Category.Shopping 2024 0 /
                 getBudgetForCategory witnessBudgets
                   { year := 2024, month := 0 } Category.Shopping) } :=
  (budget_status_spec [] witnessBudgets { year := 2024, month := 0 }
    Category.Shopping).1 (by decide)

/- ===== analytics.ts : category growth ===== -/

theorem foldl_add_amount (l : List Entry) :
    ∀ init : ℚ, l.foldl (fun sum e => sum + e.amount) init =
      init + (l.map fun e => e.amount).sum := by
  induction l with
  | nil => intro init; simp
  | cons e rest ih =>
    intro init
    rw [List.foldl_cons, ih, List.map_cons, List.sum_cons]
    ring

/-- The sort inside `getEntriesByMonth` does not change spending sums. -/
theorem getCategorySpending_eq (entries : List Entry) (c : Category) (y m : ℕ) :
    getCategorySpending entries c y m =
      (((entries.filter fun e => decide (e.dateYear = y ∧ e.dateMonth = m)).filter
          fun e => decide (e.type = EntryType.expense ∧ e.category = c)).map
        fun e => e.amount).sum := by
  rw [getCategorySpending, foldl_add_amount, zero_add]
  apply List.Perm.sum_eq
  apply List.Perm.map
  apply List.Perm.filter
  rw [getEntriesByMonth]
  exact List.mergeSort_perm _ _

theorem getCategorySpending_nonneg (entries : List Entry) (c : Category) (y m : ℕ)
    (hpos : ∀ e ∈ entries, 0 ≤ e.amount) : 0 ≤ getCategorySpending entries c y m := by
  rw [getCategorySpending_eq]
  apply List.sum_nonneg
  intro x hx
  simp only [List.mem_map, List.mem_filter] at hx
  obtain ⟨e, ⟨⟨he, _⟩, _⟩, rfl⟩ := hx
  exact hpos e he

theorem mem_CATEGORIES (c : Category) : c ∈ CATEGORIES := by
  cases c <;> decide

/-- The `CategoryGrowth` interface. -/
structure CategoryGrowth where
  category : Category
  currentAmount : ℚ
  previousAmount : ℚ
  growthPercent : ℤ
  deriving DecidableEq, Repr

/-- The body of the `CATEGORIES.map(category => ...)` in
`calculateCategoryGrowth`. -/
def categoryGrowthRow (entries : List Entry) (current previous : MonthKey)
    (category : Category) : CategoryGrowth :=
  let currentAmount := getCategorySpending entries category current.year current.month
  let previousAmount := getCategorySpending entries category previous.year previous.month
  let growthPercent : ℤ :=
    if previousAmount > 0 then
      jsRound ((currentAmount - previousAmount) / previousAmount * 100)
    else if currentAmount > 0 then 100
    else 0
  { category := category, currentAmount := currentAmount,
    previousAmount := previousAmount, growthPercent := growthPercent }

/-- `calculateCategoryGrowth` from `analytics.ts`: one row per category,
with the rows whose two amounts are both non-positive filtered out.  The
wall-clock reads `getMonthDate(0)` / `getMonthDate(1)` are abstracted into
the `current` / `previous` arguments. -/
def calculateCategoryGrowth (entries : List Entry) (current previous : MonthKey) :
    List CategoryGrowth :=
  (CATEGORIES.map fun category => categoryGrowthRow entries current previous category).filter
    fun cg => decide (cg.currentAmount > 0 ∨ cg.previousAmount > 0)

theorem categoryGrowthRow_category (entries : List Entry) (current previous : MonthKey)
    (c : Category) : (categoryGrowthRow entries current previous c).category = c := rfl

theorem categoryGrowthRow_currentAmount (entries : List Entry)
    (current previous : MonthKey) (c : Category) :
    (categoryGrowthRow entries current previous c).currentAmount =
      getCategorySpending entries c current.year current.month := rfl

theorem categoryGrowthRow_previousAmount (entries : List Entry)
    (current previous : MonthKey) (c : Category) :
    (categoryGrowthRow entries current previous c).previousAmount =
      getCategorySpending entries c previous.year previous.month := rfl

theorem categoryGrowthRow_growthPercent (entries : List Entry)
    (current previous : MonthKey) (c : Category) :
    (categoryGrowthRow entries current previous c).growthPercent =
      if getCategorySpending entries c previous.year previous.month > 0 then
        jsRound ((getCategorySpending entries c current.year current.month -
            getCategorySpending entries c previous.year previous.month) /
          getCategorySpending entries c previous.year previous.month * 100)
      else if getCategorySpending entries c current.year current.month > 0 then 100
      else 0 := rfl

/-- The entry list of the first Claim C5 example: Shopping 500 this month,
nothing last month. -/
def growthEntry1 : Entry :=
  { id := "g1", amount := 500, type := EntryType.expense,
    category := Category.Shopping, categoryGroup := CategoryGroup.lifestyle,
    priority := CategoryGroup.lifestyle, date := "2024-02-10",
    dateYear := 2024, dateMonth := 1, note := none, createdAt := 2 }

/-- Store of the first Claim C5 example. -/
def growthEntries1 : List Entry := [growthEntry1]

/-- Store of the second Claim C5 example: Shopping 750 this month, 500 last
month. -/
def growthEntries2 : List Entry :=
  [{ growthEntry1 with id := "g2", amount := 750 },
   { growthEntry1 with
     id := "g3", amount := 500, date := "2024-01-10",
     dateMonth := 0, createdAt := 1 }]

/- ===== Claim C5 ===== -/

/-- Claim C5: `calculateCategoryGrowth` returns a row exactly for the
categories whose current-month or previous-month expense spend is nonzero;
each row carries the two spends, `growthPercent = round(100 * (current -
previous) / previous)` when `previous > 0`, and `growthPercent = 100` when
`previous = 0` (the row then has `current > 0`).  Example rows: previous 0 /
current 500 gives 100, previous 500 / current 750 gives 50.  Spends are
nonnegative because entry amounts are. -/
theorem categoryGrowth_spec (entries : List Entry) (current previous : MonthKey)
    (hpos : ∀ e ∈ entries, 0 ≤ e.amount) :
    (∀ c : Category,
      (∃ cg ∈ calculateCategoryGrowth entries current previous, cg.category = c) ↔
        (getCategorySpending entries c current.year current.month ≠ 0 ∨
          getCategorySpending entries c previous.year previous.month ≠ 0))
    ∧ (∀ cg ∈ calculateCategoryGrowth entries current previous,
        cg.currentAmount = getCategorySpending entries cg.category current.year current.month
        ∧ cg.previousAmount =
            getCategorySpending entries cg.category previous.year previous.month
        ∧ (0 < cg.previousAmount → cg.growthPercent =
            jsRound (100 * (cg.currentAmount - cg.previousAmount) / cg.previousAmount))
        ∧ (cg.previousAmount = 0 → cg.growthPercent = 100 ∧ 0 < cg.currentAmount))
    ∧ ({ category := Category.Shopping, currentAmount := 500, previousAmount := 0,
          growthPercent := 100 : CategoryGrowth } ∈
        calculateCategoryGrowth growthEntries1 { year := 2024, month := 1 }
          { year := 2024, month := 0 })
    ∧ ({ category := Category.Shopping, currentAmount := 750, previousAmount := 500,
          growthPercent := 50 : CategoryGrowth } ∈
        calculateCategoryGrowth growthEntries2 { year := 2024, month := 1 }
          { year := 2024, month := 0 }) := by
  refine ⟨?_, ?_, ?_, ?_⟩
  · intro c
    constructor
    · rintro ⟨cg, hcg, hcat⟩
      rw [calculateCategoryGrowth, List.mem_filter] at hcg
      obtain ⟨hmap, hcond⟩ := hcg
      obtain ⟨c', hc', heq⟩ := List.mem_map.mp hmap
      subst heq
      rw [categoryGrowthRow_category] at hcat
      subst hcat
      rw [decide_eq_true_eq, categoryGrowthRow_currentAmount,
        categoryGrowthRow_previousAmount] at hcond
      rcases hcond with hcc | hpp
      · exact Or.inl (ne_of_gt hcc)
      · exact Or.inr (ne_of_gt hpp)
    · intro hne
      refine ⟨categoryGrowthRow entries current previous c, ?_,
        categoryGrowthRow_category _ _ _ _⟩
      rw [calculateCategoryGrowth, List.mem_filter]
      refine ⟨List.mem_map.mpr ⟨c, mem_CATEGORIES c, rfl⟩, ?_⟩
      rw [decide_eq_true_eq, categoryGrowthRow_currentAmount,
        categoryGrowthRow_previousAmount]
      rcases hne with h | h
      · exact Or.inl (lt_of_le_of_ne (getCategorySpending_nonneg _ _ _ _ hpos) (Ne.symm h))
      · exact Or.inr (lt_of_le_of_ne (getCategorySpending_nonneg _ _ _ _ hpos) (Ne.symm h))
  · intro cg hcg
    rw [calculateCategoryGrowth, List.mem_filter] at hcg
    obtain ⟨hmap, hcond⟩ := hcg
    obtain ⟨c, hc, heq⟩ := List.mem_map.mp hmap
    subst heq
    rw [decide_eq_true_eq, categoryGrowthRow_currentAmount,
      categoryGrowthRow_previousAmount] at hcond
    refine ⟨?_, ?_, ?_, ?_⟩
    · rw [categoryGrowthRow_currentAmount, categoryGrowthRow_category]
    · rw [categoryGrowthRow_previousAmount, categoryGrowthRow_category]
    · intro hprev
      rw [categoryGrowthRow_previousAmount] at hprev
      rw [categoryGrowthRow_growthPercent, categoryGrowthRow_currentAmount,
        categoryGrowthRow_previousAmount, if_pos hprev, div_mul_eq_mul_div, mul_comm]
    · intro hzero
      rw [categoryGrowthRow_previousAmount] at hzero
      have hcur : 0 < getCategorySpending entries c current.year current.month := by
        rcases hcond with hcc | hpp
        · exact hcc
        · rw [hzero] at hpp
          exact absurd hpp (by norm_num)
      constructor
      · rw [categoryGrowthRow_growthPercent, hzero, if_neg (by norm_num), if_pos hcur]
      · rw [categoryGrowthRow_currentAmount]
        exact hcur
  · have hcur : getCategorySpending growthEntries1 Category.Shopping 2024 1 = 500 := by
      rw [getCategorySpending_eq]
      simp [growthEntries1, growthEntry1]
    have hprev : getCategorySpending growthEntries1 Category.Shopping 2024 0 = 0 := by
      rw [getCategorySpending_eq]
      simp [growthEntries1, growthEntry1]
    rw [calculateCategoryGrowth, List.mem_filter]
    constructor
    · apply List.mem_map.mpr
      refine ⟨Category.Shopping, mem_CATEGORIES _, ?_⟩
      simp only [categoryGrowthRow, hcur, hprev]
      norm_num
    · rw [decide_eq_true_eq]
      norm_num
  · have hcur : getCategorySpending growthEntries2 Category.Shopping 2024 1 = 750 := by
      rw [getCategorySpending_eq]
      simp [growthEntries2, growthEntry1]
    have hprev : getCategorySpending growthEntries2 Category.Shopping 2024 0 = 500 := by
      rw [getCategorySpending_eq]
      simp [growthEntries2, growthEntry1]
    rw [calculateCategoryGrowth, List.mem_filter]
    constructor
    · apply List.mem_map.mpr
      refine ⟨Category.Shopping, mem_CATEGORIES _, ?_⟩
      simp only [categoryGrowthRow, hcur, hprev]
      norm_num [jsRound]
    · rw [decide_eq_true_eq]
      norm_num

/-- Witness for Claim C5: the one-entry store of the first example, whose
amounts are nonnegative. -/
theorem categoryGrowth_spec_witness :
    { category := Category.Shopping, currentAmount := 500, previousAmount := 0,
      growthPercent := 100 : CategoryGrowth } ∈
      calculateCategoryGrowth growthEntries1 { year := 2024, month := 1 }
        { year := 2024, month := 0 } :=
  (categoryGrowth_spec growthEntries1 { year := 2024, month := 1 }
    { year := 2024, month := 0 } (by decide)).2.2.1

/-- Witness for Claim C7 at the concrete input `[200, 100]`. -/
theorem weightedAverage_spec_witness :
    calculateWeightedAverage [200, 100] = weightedAverageSpec [200, 100] :=
  weightedAverage_spec.1 [200, 100]

/-- Witness for Claim C8 at the concrete input `(1000, 0)`. -/
theorem savingsRate_spec_witness : calculateSavingsRate 1000 0 = 100 :=
  savingsRate_spec.2
